import Mathlib

/-!
Shallow embedding of the CHIP-8 interpreter from src/src/main.rs.

Machine integers are modelled as Nat with explicit reductions modulo
2^8 or 2^16 where the Rust u8 / u16 arithmetic wraps.  Array indexing
that can panic in Rust (out-of-bounds memory or key access, popping an
empty stack, unknown opcodes) is modelled with Option: a none result
stands for a panic of the reference program.  The stack is a list whose
head is the top (Vec push is cons, Vec pop takes the head).  The random
byte drawn by opcode Cxkk is supplied as an explicit argument rnd and
used modulo 256.
-/

namespace Emu

set_option maxRecDepth 16384

def DISPLAY_HEIGHT : Nat := 32

def DISPLAY_WIDTH : Nat := 64

def DISPLAY_SIZE : Nat := DISPLAY_HEIGHT * DISPLAY_WIDTH

def FONTSET_OFFSET : Nat := 0x50

def FONTSET : List Nat :=
  [ 0xF0, 0x90, 0x90, 0x90, 0xF0,
    0x20, 0x60, 0x20, 0x20, 0x70,
    0xF0, 0x10, 0xF0, 0x80, 0xF0,
    0xF0, 0x10, 0xF0, 0x10, 0xF0,
    0x90, 0x90, 0xF0, 0x10, 0x10,
    0xF0, 0x80, 0xF0, 0x10, 0xF0,
    0xF0, 0x80, 0xF0, 0x90, 0xF0,
    0xF0, 0x10, 0x20, 0x40, 0x40,
    0xF0, 0x90, 0xF0, 0x90, 0xF0,
    0xF0, 0x90, 0xF0, 0x10, 0xF0,
    0xF0, 0x90, 0xF0, 0x90, 0x90,
    0xE0, 0x90, 0xE0, 0x90, 0xE0,
    0xF0, 0x80, 0x80, 0x80, 0xF0,
    0xE0, 0x90, 0x90, 0x90, 0xE0,
    0xF0, 0x80, 0xF0, 0x80, 0xF0,
    0xF0, 0x80, 0xF0, 0x80, 0x80 ]

/-- The interpreter state, field for field the Rust struct Chip8. -/
structure Chip8 where
  opcode : Nat
  memory : List Nat
  v : List Nat
  i : Nat
  pc : Nat
  gfx : List Bool
  stack : List Nat
  key : List Bool
  draw_flag : Bool
  delay_timer : Nat
  sound_timer : Nat
deriving Repr, DecidableEq

/-- Rust fn extract: (opcode & pattern) >> (shift * 4). -/
def extract (opcode pattern shift : Nat) : Nat :=
  (opcode &&& pattern) >>> (shift * 4)

/-- Rust fn Chip8::v_opcode: the register selected by the masked opcode field. -/
def v_opcode (s : Chip8) (pattern shift : Nat) : Nat :=
  s.v.getD (extract s.opcode pattern shift) 0

/-- Rust fn subtract: difference is computed in i16 and cast back to u8,
which for arguments below 256 is (minuend + 256 - subtrahend) mod 256;
carry is 1 exactly when minuend > subtrahend. -/
def subtract (minuend subtrahend : Nat) : Nat × Nat :=
  ((minuend + 256 - subtrahend) % 256, if minuend > subtrahend then 1 else 0)

/-- Sequential byte copy: the slice copy used by init (fontset) and by
load_game, writing bytes at consecutive addresses starting at the base. -/
def copyAt : List Nat → Nat → List Nat → List Nat
  | mem, _, [] => mem
  | mem, a, b :: rest => copyAt (mem.set a b) (a + 1) rest

/-- Rust Chip8::new. -/
def Chip8.new : Chip8 :=
  { opcode := 0
    memory := List.replicate 4096 0
    v := List.replicate 16 0
    i := 0
    pc := 0x200
    gfx := List.replicate DISPLAY_SIZE false
    stack := []
    key := List.replicate 16 false
    draw_flag := false
    delay_timer := 0
    sound_timer := 0 }

/-- Rust Chip8::init: copy the fontset into memory at FONTSET_OFFSET. -/
def Chip8.init (s : Chip8) : Chip8 :=
  { s with memory := copyAt s.memory FONTSET_OFFSET FONTSET }

/-- Rust Chip8::load_game, with the program supplied as an in-memory byte
list.  The two expect calls in the Rust code fire only on filesystem
errors (file missing or unreadable), which have no counterpart for an
in-memory source; Read::read into the slice memory[0x200..] copies at
most 4096 - 0x200 = 3584 bytes and reports no error for longer input. -/
def load_game (prog : List Nat) (s : Chip8) : Option Chip8 :=
  some { s with memory := copyAt s.memory 0x200 (prog.take (4096 - 0x200)) }

/-- Rust Chip8::fetch_opcode: read memory[pc] and memory[pc+1]
(out of bounds is a panic, hence none), combine big-endian, advance pc
by 2 (u16 arithmetic). -/
def fetch_opcode (s : Chip8) : Option Chip8 :=
  match s.memory.get? s.pc, s.memory.get? (s.pc + 1) with
  | some hi, some lo =>
      some { s with opcode := (hi <<< 8) ||| lo, pc := (s.pc + 2) % 65536 }
  | _, _ => none

/-- The Fx0A scan: first index of a pressed key, counting from n. -/
def firstPressed : List Bool → Nat → Option Nat
  | [], _ => none
  | k :: rest, n => if k then some n else firstPressed rest (n + 1)

/-- The decimal digit list produced by to_string on a u8 value
(most significant digit first, one to three digits, no zero padding),
with 48 already subtracted from each ASCII byte. -/
def decimalDigits (a : Nat) : List Nat :=
  if a < 10 then [a]
  else if a < 100 then [a / 10, a % 10]
  else [a / 100, a / 10 % 10, a % 10]

/-- The Fx33 write loop: store the digit bytes at consecutive addresses
starting at I (usize arithmetic; an out of bounds index panics, checked
here by probing the address with get?). -/
def writeDigits : List Nat → Nat → List Nat → Option (List Nat)
  | mem, _, [] => some mem
  | mem, a, d :: rest =>
      match mem.get? a with
      | none => none
      | some _ => writeDigits (mem.set a d) (a + 1) rest

/-- The Fx55 loop: memory[(I + k) as u16 as usize] = v[k] for each k,
with the out of bounds panic modelled by probing the address. -/
def storeRegs : List Nat → List Nat → Nat → List Nat → Option (List Nat)
  | mem, _, _, [] => some mem
  | mem, v, ir, k :: rest =>
      match mem.get? ((ir + k) % 65536) with
      | none => none
      | some _ => storeRegs (mem.set ((ir + k) % 65536) (v.getD k 0)) v ir rest

/-- The Fx65 loop: v[k] = memory[(I + k) as u16 as usize] for each k. -/
def loadRegs : List Nat → List Nat → Nat → List Nat → Option (List Nat)
  | _, v, _, [] => some v
  | mem, v, ir, k :: rest =>
      match mem.get? ((ir + k) % 65536) with
      | none => none
      | some b => loadRegs mem (v.set k b) ir rest

/-- BitIter over byte.reverse_bits yields, in ascending order, the
offsets o in 0..8 such that bit (7 - o) of the byte is set: the set
bits scanned most significant bit first. -/
def setOffsets (byte : Nat) : List Nat :=
  (List.range 8).filter (fun o => byte.testBit (7 - o))

/-- The inner bit loop of Dxyn over the set bit offsets of one sprite
row: x is bumped by the offset (u8 arithmetic), the loop breaks when
the x or y coordinate leaves the grid, and otherwise the pixel at row
sub_y = (if y = 0 then 0 else y - 1) and column x is collision-checked
and toggled. -/
def drawBits : Nat → Nat → List Nat → List Bool → Nat → List Bool × Nat
  | _, _, [], gfx, vf => (gfx, vf)
  | x, y, o :: rest, gfx, vf =>
      let xx := (x + o) % 256
      if DISPLAY_WIDTH ≤ xx ∨ DISPLAY_HEIGHT ≤ y then (gfx, vf)
      else
        let sub_y := if y = 0 then 0 else y - 1
        let p := sub_y * DISPLAY_WIDTH + xx
        let vf2 := if gfx.getD p false then 1 else vf
        drawBits x y rest (gfx.set p (!gfx.getD p false)) vf2

/-- The outer row loop of Dxyn: for each row r the sprite byte is read
at (I + r) (u16 arithmetic, out of bounds memory access is a panic) and
its set bits are drawn at row y0 + r (u8 arithmetic). -/
def drawLoop (mem : List Nat) (ir x y0 : Nat) :
    List Nat → List Bool → Nat → Option (List Bool × Nat)
  | [], gfx, vf => some (gfx, vf)
  | r :: rest, gfx, vf =>
      match mem.get? ((ir + r) % 65536) with
      | none => none
      | some byte =>
          let gv := drawBits x ((y0 + r) % 256) (setOffsets byte) gfx vf
          drawLoop mem ir x y0 rest gv.1 gv.2

/-- Rust Chip8::emulate_cycle: decode s.opcode and execute it.  none is
a panic of the reference program (invalid opcode, empty stack pop, or
an out of bounds index).  rnd supplies the byte drawn by random in the
Cxkk branch. -/
def emulate_cycle (rnd : Nat) (s : Chip8) : Option Chip8 :=
  if extract s.opcode 0xF000 3 = 0 then
    if extract s.opcode 0x00FF 0 = 0xE0 then
      some { s with gfx := List.replicate DISPLAY_SIZE false }
    else if extract s.opcode 0x00FF 0 = 0xEE then
      match s.stack with
      | [] => none
      | a :: rest => some { s with pc := a, stack := rest }
    else none
  else if extract s.opcode 0xF000 3 = 1 then
    some { s with pc := s.opcode &&& 0x0FFF }
  else if extract s.opcode 0xF000 3 = 2 then
    some { s with stack := s.pc :: s.stack, pc := extract s.opcode 0x0FFF 0 }
  else if extract s.opcode 0xF000 3 = 3 then
    some (if v_opcode s 0x0F00 2 = extract s.opcode 0x00FF 0 then
      { s with pc := (s.pc + 2) % 65536 } else s)
  else if extract s.opcode 0xF000 3 = 4 then
    some (if v_opcode s 0x0F00 2 ≠ extract s.opcode 0x00FF 0 then
      { s with pc := (s.pc + 2) % 65536 } else s)
  else if extract s.opcode 0xF000 3 = 5 then
    some (if v_opcode s 0x0F00 2 = v_opcode s 0x00F0 1 then
      { s with pc := (s.pc + 2) % 65536 } else s)
  else if extract s.opcode 0xF000 3 = 6 then
    some { s with v := s.v.set (extract s.opcode 0x0F00 2) (extract s.opcode 0x00FF 0) }
  else if extract s.opcode 0xF000 3 = 7 then
    let nv := s.v.set (extract s.opcode 0x0F00 2)
      ((v_opcode s 0x0F00 2 + extract s.opcode 0x00FF 0) % 256)
    some { s with v := nv }
  else if extract s.opcode 0xF000 3 = 8 then
    if extract s.opcode 0x000F 0 = 0 then
      some { s with v := s.v.set (extract s.opcode 0x0F00 2) (v_opcode s 0x00F0 1) }
    else if extract s.opcode 0x000F 0 = 1 then
      let nv := s.v.set (extract s.opcode 0x0F00 2)
        (v_opcode s 0x0F00 2 ||| v_opcode s 0x00F0 1)
      some { s with v := nv }
    else if extract s.opcode 0x000F 0 = 2 then
      let nv := s.v.set (extract s.opcode 0x0F00 2)
        (v_opcode s 0x0F00 2 &&& v_opcode s 0x00F0 1)
      some { s with v := nv }
    else if extract s.opcode 0x000F 0 = 3 then
      let nv := s.v.set (extract s.opcode 0x0F00 2)
        (v_opcode s 0x0F00 2 ^^^ v_opcode s 0x00F0 1)
      some { s with v := nv }
    else if extract s.opcode 0x000F 0 = 4 then
      let result := v_opcode s 0x0F00 2 + v_opcode s 0x00F0 1
      let v1 := s.v.set 15 (if result > 255 then 1 else 0)
      some { s with v := v1.set (extract s.opcode 0x0F00 2) (result % 256) }
    else if extract s.opcode 0x000F 0 = 5 then
      let d := subtract (v_opcode s 0x0F00 2) (v_opcode s 0x00F0 1)
      some { s with v := (s.v.set 15 d.2).set (extract s.opcode 0x0F00 2) d.1 }
    else if extract s.opcode 0x000F 0 = 6 then
      let v1 := s.v.set 15 (v_opcode s 0x0F00 2 &&& 1)
      let nv := v1.set (extract s.opcode 0x0F00 2) (v1.getD (extract s.opcode 0x0F00 2) 0 >>> 1)
      some { s with v := nv }
    else if extract s.opcode 0x000F 0 = 0xE then
      let v1 := s.v.set 15 (v_opcode s 0x0F00 2 &&& 0x80)
      let nv := v1.set (extract s.opcode 0x0F00 2) ((v1.getD (extract s.opcode 0x0F00 2) 0 <<< 1) % 256)
      some { s with v := nv }
    else if extract s.opcode 0x000F 0 = 7 then
      let d := subtract (v_opcode s 0x00F0 1) (v_opcode s 0x0F00 2)
      some { s with v := (s.v.set 15 d.2).set (extract s.opcode 0x0F00 2) d.1 }
    else none
  else if extract s.opcode 0xF000 3 = 9 then
    some (if v_opcode s 0x0F00 2 ≠ v_opcode s 0x00F0 1 then
      { s with pc := (s.pc + 2) % 65536 } else s)
  else if extract s.opcode 0xF000 3 = 0xA then
    some { s with i := extract s.opcode 0x0FFF 0 }
  else if extract s.opcode 0xF000 3 = 0xB then
    some { s with pc := (extract s.opcode 0x0FFF 0 + s.v.getD 0 0) % 65536 }
  else if extract s.opcode 0xF000 3 = 0xC then
    let nv := s.v.set (extract s.opcode 0x0F00 2) ((rnd % 256) &&& extract s.opcode 0x00FF 0)
    some { s with v := nv }
  else if extract s.opcode 0xF000 3 = 0xE then
    if extract s.opcode 0x00FF 0 = 0x9E then
      match s.key.get? (v_opcode s 0x0F00 2) with
      | none => none
      | some k => some (if k then { s with pc := (s.pc + 2) % 65536 } else s)
    else if extract s.opcode 0x00FF 0 = 0xA1 then
      match s.key.get? (v_opcode s 0x0F00 2) with
      | none => none
      | some k => some (if !k then { s with pc := (s.pc + 2) % 65536 } else s)
    else none
  else if extract s.opcode 0xF000 3 = 0xD then
    let x := v_opcode s 0x0F00 2 % DISPLAY_WIDTH
    let y := v_opcode s 0x00F0 1
    let n := extract s.opcode 0x000F 0
    match drawLoop s.memory s.i x y (List.range n) s.gfx 0 with
    | none => none
    | some gv =>
        some { s with gfx := gv.1, v := s.v.set 15 gv.2, draw_flag := true }
  else if extract s.opcode 0xF000 3 = 0xF then
    if extract s.opcode 0x00FF 0 = 7 then
      some { s with v := s.v.set (extract s.opcode 0x0F00 2) s.delay_timer }
    else if extract s.opcode 0x00FF 0 = 0x15 then
      some { s with delay_timer := v_opcode s 0x0F00 2 }
    else if extract s.opcode 0x00FF 0 = 0x18 then
      some { s with sound_timer := v_opcode s 0x0F00 2 }
    else if extract s.opcode 0x00FF 0 = 0x1E then
      let i2 := (s.i + v_opcode s 0x0F00 2) % 65536
      some { s with i := i2, v := s.v.set 15 (if i2 > 1000 then 1 else 0) }
    else if extract s.opcode 0x00FF 0 = 0x0A then
      match firstPressed s.key 0 with
      | some k => some { s with v := s.v.set (extract s.opcode 0x0F00 2) k }
      | none => some { s with pc := (s.pc + 65534) % 65536 }
    else if extract s.opcode 0x00FF 0 = 0x29 then
      some { s with i := (v_opcode s 0x0F00 2 &&& 0x0F) * 5 + FONTSET_OFFSET }
    else if extract s.opcode 0x00FF 0 = 0x33 then
      match writeDigits s.memory s.i (decimalDigits (v_opcode s 0x0F00 2)) with
      | none => none
      | some m => some { s with memory := m }
    else if extract s.opcode 0x00FF 0 = 0x55 then
      match storeRegs s.memory s.v s.i (List.range (extract s.opcode 0x0F00 2 + 1)) with
      | none => none
      | some m => some { s with memory := m }
    else if extract s.opcode 0x00FF 0 = 0x65 then
      match loadRegs s.memory s.v s.i (List.range (extract s.opcode 0xF00 2 + 1)) with
      | none => none
      | some v2 => some { s with v := v2 }
    else none
  else none

/-! Concrete states used to exercise the interpreter. -/

/-- A fresh machine holding the two-row sprite 80 80 at address 0 with
I = 0, about to execute the draw D012 at origin (0, 0). -/
def wC1 : Chip8 :=
  { Chip8.new with
    memory := (Chip8.new.memory.set 0 0x80).set 1 0x80
    opcode := 0xD012 }

/-- A fresh machine with V0 = 5, I = 0, marker bytes 9 and 7 at
addresses 1 and 2, about to execute F033. -/
def wC2 : Chip8 :=
  { Chip8.new with
    v := Chip8.new.v.set 0 5
    memory := (Chip8.new.memory.set 1 9).set 2 7
    opcode := 0xF033 }

/-- A machine with a fully lit display and a clear draw flag, about to
execute 00E0. -/
def wC3 : Chip8 :=
  { Chip8.new with gfx := List.replicate DISPLAY_SIZE true, opcode := 0x00E0 }

/-- The state the interpreter reaches from wC3. -/
def wC3r : Chip8 := { wC3 with gfx := List.replicate DISPLAY_SIZE false }

/-- A machine about to execute 8F04 (Vx with x = F) with VF = 200 and
V0 = 100: the 16-bit sum is 300. -/
def wC5 : Chip8 :=
  { Chip8.new with opcode := 0x8F04, v := (Chip8.new.v.set 15 200).set 0 100 }

/-- A machine about to execute 8124 with V1 = 200 and V2 = 100. -/
def wC5a : Chip8 :=
  { Chip8.new with opcode := 0x8124, v := (Chip8.new.v.set 1 200).set 2 100 }

/-- The state the interpreter reaches from wC5a. -/
def wC5r : Chip8 := { wC5a with v := (wC5a.v.set 15 1).set 1 44 }

/-- A machine with the instruction F30A stored at 0x200 and no key
pressed. -/
def wC6s : Chip8 :=
  { Chip8.new with memory := (Chip8.new.memory.set 0x200 0xF3).set 0x201 0x0A }

/-- The state after fetching from wC6s. -/
def wC6s1 : Chip8 := { wC6s with opcode := 0xF30A, pc := 0x202 }

/-- The state after executing the fetched F30A with no key pressed. -/
def wC6s2 : Chip8 := { wC6s1 with pc := 0x200 }

/-- A machine with the instruction F30A stored at 0x200 and key 4
pressed. -/
def wC6t : Chip8 :=
  { Chip8.new with
    memory := (Chip8.new.memory.set 0x200 0xF3).set 0x201 0x0A
    key := (List.replicate 16 false).set 4 true }

/-- The state after fetching from wC6t. -/
def wC6t1 : Chip8 := { wC6t with opcode := 0xF30A, pc := 0x202 }

/-- The state after executing the fetched F30A with key 4 pressed. -/
def wC6t2 : Chip8 := { wC6t1 with v := wC6t1.v.set 3 4 }

/-- A machine with the call 2300 stored at 0x200. -/
def wC7s : Chip8 :=
  { Chip8.new with memory := (Chip8.new.memory.set 0x200 0x23).set 0x201 0x00 }

/-- The state after fetching from wC7s. -/
def wC7s1 : Chip8 := { wC7s with opcode := 0x2300, pc := 0x202 }

/-- The state after executing the fetched call. -/
def wC7s2 : Chip8 := { wC7s1 with stack := [0x202], pc := 0x300 }

/-- A later machine about to execute the return 00EE with the frame
0x202 on top of the stack. -/
def wC7t : Chip8 := { Chip8.new with opcode := 0x00EE, stack := [0x202] }

/-- The state after executing the return from wC7t. -/
def wC7t2 : Chip8 := { wC7t with pc := 0x202, stack := [] }

/-- A machine about to execute F11E with I = 999 and V1 = 3. -/
def wC8 : Chip8 :=
  { Chip8.new with opcode := 0xF11E, i := 999, v := Chip8.new.v.set 1 3 }

/-- The state the interpreter reaches from wC8. -/
def wC8r : Chip8 := { wC8 with i := 1002, v := wC8.v.set 15 1 }

/-- A machine about to execute F255 with I = 0x300 and V0 = 1. -/
def wC9 : Chip8 :=
  { Chip8.new with opcode := 0xF255, i := 0x300, v := Chip8.new.v.set 0 1 }

/-- The state the interpreter reaches from wC9. -/
def wC9r : Chip8 :=
  { wC9 with memory := ((wC9.memory.set 0x300 1).set 0x301 0).set 0x302 0 }

/-- A machine whose program counter sits on the last memory byte. -/
def wC10 : Chip8 := { Chip8.new with pc := 0xFFF }

/-! Helper lemmas. -/

theorem getD_set_self {α : Type} :
    ∀ (l : List α) (i : Nat) (a d : α), i < l.length → (l.set i a).getD i d = a
  | [], i, _, _, h => absurd h (Nat.not_lt_zero i)
  | _ :: _, 0, _, _, _ => rfl
  | _ :: t, i + 1, a, d, h => getD_set_self t i a d (Nat.lt_of_succ_lt_succ h)

theorem getD_set_of_ne {α : Type} :
    ∀ (l : List α) (i j : Nat) (a d : α), i ≠ j → (l.set i a).getD j d = l.getD j d
  | [], _, _, _, _, _ => rfl
  | _ :: _, 0, 0, _, _, h => absurd rfl h
  | _ :: _, 0, _ + 1, _, _, _ => rfl
  | _ :: _, _ + 1, 0, _, _, _ => rfl
  | _ :: t, i + 1, j + 1, a, d, h =>
      getD_set_of_ne t i j a d (fun e => h (by rw [e]))

theorem extract_0F00_lt (op : Nat) : extract op 0x0F00 2 < 16 := by
  unfold extract
  have h1 : op &&& 0x0F00 ≤ 0x0F00 := Nat.and_le_right
  calc (op &&& 0x0F00) >>> (2 * 4) ≤ 0x0F00 >>> (2 * 4) := by
        rw [Nat.shiftRight_eq_div_pow, Nat.shiftRight_eq_div_pow]
        exact Nat.div_le_div_right h1
    _ < 16 := by decide

theorem new_memory_length : Chip8.new.memory.length = 4096 := by
  show (List.replicate 4096 0).length = 4096
  rw [List.length_replicate]

theorem wC10_memory_length : wC10.memory.length = 4096 := new_memory_length

theorem fetch_opcode_fields {s s1 : Chip8} (hf : fetch_opcode s = some s1) :
    s1.pc = (s.pc + 2) % 65536 ∧ s1.memory = s.memory ∧ s1.v = s.v ∧
    s1.key = s.key ∧ s1.stack = s.stack ∧ s1.i = s.i := by
  unfold fetch_opcode at hf
  cases h1 : s.memory.get? s.pc with
  | none => rw [h1] at hf; simp at hf
  | some hi =>
    cases h2 : s.memory.get? (s.pc + 1) with
    | none => rw [h1, h2] at hf; simp at hf
    | some lo =>
      rw [h1, h2] at hf
      simp only [Option.some.injEq] at hf
      subst hf
      simp

/-! The claims. -/

/-- C10: with memory of size 4096, when PC is at most 0xFFE both reads
of fetch_opcode are in bounds and the fetch succeeds; when PC is 0xFFF
the read at PC + 1 is out of bounds and the fetch is the Rust panic. -/
theorem claim_C10 (s t : Chip8) (hs : s.memory.length = 4096) (hpc : s.pc ≤ 0xFFE)
    (ht : t.memory.length = 4096) (hpct : t.pc = 0xFFF) :
    (fetch_opcode s).isSome = true ∧ fetch_opcode t = none := by
  constructor
  · have h1 : s.pc < s.memory.length := by omega
    have h2 : s.pc + 1 < s.memory.length := by omega
    unfold fetch_opcode
    rw [List.get?_eq_get h1, List.get?_eq_get h2]
    rfl
  · unfold fetch_opcode
    have h2 : t.memory.get? (t.pc + 1) = none := by
      rw [List.get?_eq_none]
      omega
    rw [h2]
    cases t.memory.get? t.pc <;> rfl

/-- C10 witness: the fresh machine fetches, and a machine with PC at
0xFFF panics. -/
theorem claim_C10_witness :
    (fetch_opcode Chip8.new).isSome = true ∧ fetch_opcode wC10 = none :=
  claim_C10 Chip8.new wC10 new_memory_length (by decide) wC10_memory_length rfl

/-- C3 counterexample: executing 00E0 on a machine whose draw flag is
false leaves the draw flag false, against the claim that it is set. -/
theorem claim_C3_counterexample :
    (emulate_cycle 0 wC3).map (fun t => t.draw_flag) = some false := rfl

/-- C3 amended: executing 00E0 makes every pixel of the display false
and leaves the draw flag unchanged (the Rust arm only overwrites gfx). -/
theorem claim_C3_amended (r : Nat) (s s' : Chip8)
    (h0 : extract s.opcode 0xF000 3 = 0) (hE : extract s.opcode 0x00FF 0 = 0xE0)
    (hex : emulate_cycle r s = some s') :
    s'.gfx = List.replicate 2048 false ∧ s'.draw_flag = s.draw_flag := by
  have hstep : emulate_cycle r s =
      some { s with gfx := List.replicate DISPLAY_SIZE false } := by
    unfold emulate_cycle
    rw [h0, hE]
    rfl
  rw [hstep] at hex
  have h2 := Option.some.inj hex
  subst h2
  exact ⟨by norm_num [DISPLAY_SIZE, DISPLAY_HEIGHT, DISPLAY_WIDTH], rfl⟩

/-- C3 witness: the amended claim at the concrete lit display. -/
theorem claim_C3_witness :
    wC3r.gfx = List.replicate 2048 false ∧ wC3r.draw_flag = wC3.draw_flag :=
  claim_C3_amended 0 wC3 wC3r (by decide) (by decide) rfl

/-- C4 counterexample: loading a 3585-byte program does not fail: the
embedded load_game returns a state (the Rust slice read cannot report a
too-large program). -/
theorem claim_C4_counterexample :
    (load_game (List.replicate 3585 1) Chip8.new).isSome = true := rfl

/-- C4 amended: loading a program longer than 3584 bytes succeeds and
silently truncates: the result is the same as loading only the first
3584 bytes. -/
theorem claim_C4_amended (prog : List Nat) (s : Chip8) (_hlen : 3584 < prog.length) :
    (load_game prog s).isSome = true ∧
    load_game prog s = load_game (prog.take 3584) s := by
  refine ⟨rfl, ?_⟩
  unfold load_game
  rw [List.take_take]
  norm_num

/-- C4 witness: the amended claim at a concrete 3585-byte program. -/
theorem claim_C4_witness :
    (load_game (List.replicate 3585 1) Chip8.new).isSome = true ∧
    load_game (List.replicate 3585 1) Chip8.new =
      load_game ((List.replicate 3585 1).take 3584) Chip8.new :=
  claim_C4_amended (List.replicate 3585 1) Chip8.new
    (by rw [List.length_replicate]; decide)

/-- C1: evaluation of the code at the failing input.  Drawing the
two-row sprite 80 80 at origin (0, 0) should, per the claim, toggle
exactly pixels (0, 0) and (0, 1) with no collision; the interpreter
instead maps sprite row r to display row y + r - 1 (clamped at 0), so
both rows hit pixel (0, 0): the toggles cancel, pixel (0, 1) stays
off, and VF reports a collision. -/
theorem claim_C1_code :
    (emulate_cycle 0 wC1).map
      (fun t => (t.gfx.getD 0 false, t.gfx.getD 64 false, t.v.getD 15 0, t.draw_flag)) =
    some (false, false, 1, true) := rfl

/-- C2: evaluation of the code at the failing input.  With V0 = 5 and
I = 0 the claim demands memory bytes 0, 0, 5 at I, I+1, I+2; the
interpreter writes only the single digit string, leaving the marker
bytes 9 and 7 at I+1 and I+2 untouched. -/
theorem claim_C2_code :
    (emulate_cycle 0 wC2).map
      (fun t => (t.memory.getD 0 99, t.memory.getD 1 99, t.memory.getD 2 99)) =
    some (5, 9, 7) := rfl

/-- C5 counterexample: with x = F (opcode 8F04), VF = 200 and V0 = 100,
the sum 300 exceeds 255, so the claim demands VF = 1; the interpreter
writes the carry first and then overwrites VF with the truncated sum
44. -/
theorem claim_C5_counterexample :
    (emulate_cycle 0 wC5).map (fun t => t.v.getD 15 0) = some 44 ∧ (44 : Nat) ≠ 1 :=
  ⟨rfl, by decide⟩

/-- C5 amended: for x distinct from F, 8xy4 sets VF to 1 exactly when
the 16-bit sum Vx + Vy exceeds 255 (else 0) and Vx to the sum modulo
256; for x = F the result write overwrites the carry. -/
theorem claim_C5_amended (r : Nat) (s s' : Chip8)
    (h8 : extract s.opcode 0xF000 3 = 8) (h4 : extract s.opcode 0x000F 0 = 4)
    (hv : s.v.length = 16) (hx : extract s.opcode 0x0F00 2 ≠ 15)
    (hex : emulate_cycle r s = some s') :
    s'.v.getD 15 0 =
      (if s.v.getD (extract s.opcode 0x0F00 2) 0 +
          s.v.getD (extract s.opcode 0x00F0 1) 0 > 255 then 1 else 0) ∧
    s'.v.getD (extract s.opcode 0x0F00 2) 0 =
      (s.v.getD (extract s.opcode 0x0F00 2) 0 +
        s.v.getD (extract s.opcode 0x00F0 1) 0) % 256 := by
  have hstep : emulate_cycle r s = some { s with
      v := (s.v.set 15 (if s.v.getD (extract s.opcode 0x0F00 2) 0 +
              s.v.getD (extract s.opcode 0x00F0 1) 0 > 255 then 1 else 0)).set
          (extract s.opcode 0x0F00 2)
          ((s.v.getD (extract s.opcode 0x0F00 2) 0 +
              s.v.getD (extract s.opcode 0x00F0 1) 0) % 256) } := by
    unfold emulate_cycle
    rw [h8, h4]
    rfl
  rw [hstep] at hex
  have h2 := Option.some.inj hex
  subst h2
  constructor
  · show ((s.v.set 15 _).set _ _).getD 15 0 = _
    rw [getD_set_of_ne _ _ _ _ _ hx, getD_set_self]
    rw [hv]
    decide
  · show ((s.v.set 15 _).set _ _).getD (extract s.opcode 0x0F00 2) 0 = _
    rw [getD_set_self]
    rw [List.length_set, hv]
    exact extract_0F00_lt s.opcode

/-- C5 witness: the amended claim at opcode 8124 with V1 = 200 and
V2 = 100. -/
theorem claim_C5_witness :
    wC5r.v.getD 15 0 =
      (if wC5a.v.getD (extract wC5a.opcode 0x0F00 2) 0 +
          wC5a.v.getD (extract wC5a.opcode 0x00F0 1) 0 > 255 then 1 else 0) ∧
    wC5r.v.getD (extract wC5a.opcode 0x0F00 2) 0 =
      (wC5a.v.getD (extract wC5a.opcode 0x0F00 2) 0 +
        wC5a.v.getD (extract wC5a.opcode 0x00F0 1) 0) % 256 :=
  claim_C5_amended 0 wC5a wC5r (by decide) (by decide) (by decide) (by decide) rfl

/-- C6: Fx0A scans the keys in ascending order.  If some key is
pressed, Vx receives the index of the first pressed key and the
execute step leaves PC where the fetch put it; if no key is pressed,
the execute step rewinds PC by 2, so the net change of PC across the
fetch plus execute cycle is zero and the memory holding the
instruction is unchanged, making the next cycle re-execute it. -/
theorem claim_C6 (r : Nat) (s s1 s2 : Chip8)
    (hf : fetch_opcode s = some s1) (hpc : s.pc + 2 < 65536)
    (hF : extract s1.opcode 0xF000 3 = 0xF) (hA : extract s1.opcode 0x00FF 0 = 0x0A)
    (hex : emulate_cycle r s1 = some s2) :
    (∀ k, firstPressed s1.key 0 = some k →
      s2.pc = s1.pc ∧ s2.v = s1.v.set (extract s1.opcode 0x0F00 2) k) ∧
    (firstPressed s1.key 0 = none →
      s2.pc = s.pc ∧ s2.memory = s.memory ∧ s2.v = s.v) := by
  obtain ⟨hp1, hm1, hv1, -, -, -⟩ := fetch_opcode_fields hf
  have hstep : emulate_cycle r s1 =
      (match firstPressed s1.key 0 with
      | some k => some { s1 with v := s1.v.set (extract s1.opcode 0x0F00 2) k }
      | none => some { s1 with pc := (s1.pc + 65534) % 65536 }) := by
    unfold emulate_cycle
    rw [hF, hA]
    rfl
  rw [hstep] at hex
  constructor
  · intro k hk
    rw [hk] at hex
    have h2 := Option.some.inj hex
    subst h2
    exact ⟨rfl, rfl⟩
  · intro hk
    rw [hk] at hex
    have h2 := Option.some.inj hex
    subst h2
    refine ⟨?_, hm1, hv1⟩
    show (s1.pc + 65534) % 65536 = s.pc
    rw [hp1, Nat.mod_eq_of_lt hpc]
    omega

/-- C6 witness: both branches at the concrete instruction F30A stored
at 0x200, once with no key pressed and once with key 4 pressed. -/
theorem claim_C6_witness :
    (wC6s2.pc = wC6s.pc ∧ wC6s2.memory = wC6s.memory ∧ wC6s2.v = wC6s.v) ∧
    (wC6t2.pc = wC6t1.pc ∧ wC6t2.v = wC6t1.v.set (extract wC6t1.opcode 0x0F00 2) 4) :=
  ⟨(claim_C6 0 wC6s wC6s1 wC6s2 rfl (by decide) (by decide) (by decide) rfl).2 rfl,
   (claim_C6 0 wC6t wC6t1 wC6t2 rfl (by decide) (by decide) (by decide) rfl).1 4 rfl⟩

/-- C7: the call 2nnn pushes the PC already advanced past the call
(the address of the next instruction) and jumps to nnn; a later return
00EE with that frame on top pops it back into PC, so control resumes
at the instruction immediately after the original call. -/
theorem claim_C7 (r r2 : Nat) (s s1 s2 t t' : Chip8) (rest : List Nat)
    (hf : fetch_opcode s = some s1) (hpc : s.pc + 2 < 65536)
    (h2 : extract s1.opcode 0xF000 3 = 2)
    (hcall : emulate_cycle r s1 = some s2)
    (h0 : extract t.opcode 0xF000 3 = 0) (hEE : extract t.opcode 0x00FF 0 = 0xEE)
    (hstack : t.stack = (s.pc + 2) :: rest)
    (hret : emulate_cycle r2 t = some t') :
    s2.stack = (s.pc + 2) :: s.stack ∧ s2.pc = extract s1.opcode 0x0FFF 0 ∧
    t'.pc = s.pc + 2 ∧ t'.stack = rest := by
  obtain ⟨hp1, -, -, -, hst1, -⟩ := fetch_opcode_fields hf
  have hstep1 : emulate_cycle r s1 =
      some { s1 with stack := s1.pc :: s1.stack, pc := extract s1.opcode 0x0FFF 0 } := by
    unfold emulate_cycle
    rw [h2]
    rfl
  rw [hstep1] at hcall
  have hc := Option.some.inj hcall
  subst hc
  have hstep2 : emulate_cycle r2 t =
      (match t.stack with
      | [] => none
      | a :: rest => some { t with pc := a, stack := rest }) := by
    unfold emulate_cycle
    rw [h0, hEE]
    rfl
  rw [hstep2, hstack] at hret
  have hr := Option.some.inj hret
  subst hr
  refine ⟨?_, rfl, rfl, rfl⟩
  show s1.pc :: s1.stack = (s.pc + 2) :: s.stack
  rw [hp1, Nat.mod_eq_of_lt hpc, hst1]

/-- C7 witness: the call 2300 fetched at 0x200 pushes 0x202 and jumps
to 0x300; a later 00EE with 0x202 on top returns to 0x202. -/
theorem claim_C7_witness :
    wC7s2.stack = (wC7s.pc + 2) :: wC7s.stack ∧
    wC7s2.pc = extract wC7s1.opcode 0x0FFF 0 ∧
    wC7t2.pc = wC7s.pc + 2 ∧ wC7t2.stack = [] :=
  claim_C7 0 0 wC7s wC7s1 wC7s2 wC7t wC7t2 [] rfl (by decide) (by decide) rfl
    (by decide) (by decide) rfl rfl

/-- C8: Fx1E adds Vx to I (16-bit) and then sets VF to 1 exactly when
the new I exceeds 1000 (the literal threshold of the code, not 0xFFF)
and to 0 otherwise. -/
theorem claim_C8 (r : Nat) (s s' : Chip8)
    (hF : extract s.opcode 0xF000 3 = 0xF) (hE : extract s.opcode 0x00FF 0 = 0x1E)
    (hv : s.v.length = 16)
    (hI : s.i + s.v.getD (extract s.opcode 0x0F00 2) 0 < 65536)
    (hex : emulate_cycle r s = some s') :
    s'.i = s.i + s.v.getD (extract s.opcode 0x0F00 2) 0 ∧
    s'.v.getD 15 0 =
      (if s.i + s.v.getD (extract s.opcode 0x0F00 2) 0 > 1000 then 1 else 0) := by
  have hstep : emulate_cycle r s = some { s with
      i := (s.i + s.v.getD (extract s.opcode 0x0F00 2) 0) % 65536
      v := s.v.set 15
        (if (s.i + s.v.getD (extract s.opcode 0x0F00 2) 0) % 65536 > 1000 then 1
          else 0) } := by
    unfold emulate_cycle
    rw [hF, hE]
    rfl
  rw [hstep] at hex
  have h2 := Option.some.inj hex
  subst h2
  have hm : (s.i + s.v.getD (extract s.opcode 0x0F00 2) 0) % 65536 =
      s.i + s.v.getD (extract s.opcode 0x0F00 2) 0 := Nat.mod_eq_of_lt hI
  refine ⟨hm, ?_⟩
  show (s.v.set 15 _).getD 15 0 = _
  rw [hm, getD_set_self]
  rw [hv]
  decide

/-- C8 witness: F11E at I = 999 and V1 = 3 gives I = 1002 and VF = 1. -/
theorem claim_C8_witness :
    wC8r.i = wC8.i + wC8.v.getD (extract wC8.opcode 0x0F00 2) 0 ∧
    wC8r.v.getD 15 0 =
      (if wC8.i + wC8.v.getD (extract wC8.opcode 0x0F00 2) 0 > 1000 then 1 else 0) :=
  claim_C8 0 wC8 wC8r (by decide) (by decide) (by decide) (by decide) rfl

/-- C9: whenever Fx55 or Fx65 executes without a panic, the index
register I is unchanged: both loops read I but never write it. -/
theorem claim_C9 (r : Nat) (s s' : Chip8)
    (hF : extract s.opcode 0xF000 3 = 0xF)
    (h : extract s.opcode 0x00FF 0 = 0x55 ∨ extract s.opcode 0x00FF 0 = 0x65)
    (hex : emulate_cycle r s = some s') : s'.i = s.i := by
  rcases h with h | h
  · have hstep : emulate_cycle r s =
        (match storeRegs s.memory s.v s.i (List.range (extract s.opcode 0x0F00 2 + 1)) with
        | none => none
        | some m => some { s with memory := m }) := by
      unfold emulate_cycle
      rw [hF, h]
      rfl
    rw [hstep] at hex
    rcases hm : storeRegs s.memory s.v s.i (List.range (extract s.opcode 0x0F00 2 + 1)) with
      _ | m
    · rw [hm] at hex
      exact Option.noConfusion hex
    · rw [hm] at hex
      have h2 := Option.some.inj hex
      subst h2
      rfl
  · have hstep : emulate_cycle r s =
        (match loadRegs s.memory s.v s.i (List.range (extract s.opcode 0xF00 2 + 1)) with
        | none => none
        | some v2 => some { s with v := v2 }) := by
      unfold emulate_cycle
      rw [hF, h]
      rfl
    rw [hstep] at hex
    rcases hm : loadRegs s.memory s.v s.i (List.range (extract s.opcode 0xF00 2 + 1)) with
      _ | v2
    · rw [hm] at hex
      exact Option.noConfusion hex
    · rw [hm] at hex
      have h2 := Option.some.inj hex
      subst h2
      rfl

/-- C9 witness: F255 at I = 0x300 stores V0..V2 and leaves I at
0x300. -/
theorem claim_C9_witness : wC9r.i = wC9.i :=
  claim_C9 0 wC9 wC9r (by decide) (Or.inl (by decide)) rfl

end Emu
